import Mathlib

/-!
Shallow embedding of the multilingual document ingestion pipeline
(`multilingual_rag_pipeline/multilingual_ingestion_pipeline.py`).

External collaborators (blob storage, the translator backend, document
intelligence, the search index, the embedding endpoint) are modelled as
environment records whose fields give the outcome of each external call:
a call that may raise a Python exception is modelled as `Except String α`
carrying `str(e)` in the error case.  The pipeline's own control flow —
the per-document `try/except` in `_process_single_document`, the graceful
degradation in `detect_and_translate`, the fallback chains in
`_extract_from_pdf` and `_chunk_and_embed_content`, the swallowing of
indexing errors in `index_chunks`, and the aggregation in
`ingest_documents` — is translated statement by statement from the source.
-/

/-- Python `str.strip()`: drop leading and trailing whitespace. -/
def pyStrip (s : String) : String :=
  ⟨(((s.data.dropWhile Char.isWhitespace).reverse.dropWhile Char.isWhitespace).reverse)⟩

/-- Python `str.split()` with no argument: split on runs of whitespace,
dropping empty pieces. -/
def pySplit (s : String) : List String :=
  (s.split Char.isWhitespace).filter (fun w => w ≠ "")

/-- Python `range(0, stop, step)` for `step > 0`: the multiples of `step`
below `stop`. -/
def pyRange (stop step : Nat) : List Nat :=
  List.range' 0 ((stop + step - 1) / step) step

/-- Model of `data_utils.Document`, restricted to the fields this pipeline reads
(`content`, `title`, `url`).  Corresponds to the spec's Chunk. -/
structure Document where
  content : String
  title : String
  url : String
deriving Repr, DecidableEq

/-- Modelled from the spec: `translationStats` is "optional metadata: char
counts, duration" returned by the translator backend (`azure_translator.py`
is not part of the analysed sources); the pipeline only stores it. -/
structure TranslationStats where
  charCounts : Nat
  duration : Nat
deriving Repr, DecidableEq

/-- The `DocumentProcessingResult` dataclass (processing_time, a
wall-clock float, is outside the model). -/
structure DocumentProcessingResult where
  success : Bool
  original_file : String
  file_format : String
  detected_language : String
  translated : Bool := false
  blob_url : Option String := none
  chunks_count : Nat := 0
  error_message : Option String := none
  translation_stats : Option TranslationStats := none
deriving Repr, DecidableEq

/-- The `PipelineResult` dataclass (total_processing_time omitted). -/
structure PipelineResult where
  success : Bool
  total_files : Nat
  processed_files : Nat
  failed_files : Nat
  translated_files : Nat
  total_chunks : Nat
  results : List DocumentProcessingResult
  error_message : Option String := none
deriving Repr, DecidableEq

/-- Environment of `TranslationService.detect_and_translate`: outcomes of
the two translator-backend calls (both may raise) and the two processing
settings the method reads. -/
structure TransEnv where
  detectLang : String → Except String String
  translateText : String → Except String (String × TranslationStats)
  translationEnabled : Bool
  forceTranslation : Bool

/-- Model of `TranslationService.detect_and_translate`.  Returns
`(detected_language, final_text, translated_text, translation_stats)`;
the whole body is wrapped in `try/except` returning
`('unknown', text, None, None)` on any exception. -/
def detect_and_translate (env : TransEnv) (text : String) :
    String × String × Option String × Option TranslationStats :=
  match env.detectLang text with
  | .error _ => ("unknown", text, none, none)
  | .ok detected_lang =>
    if !env.translationEnabled then
      (detected_lang, text, none, none)
    else if detected_lang == "en" && !env.forceTranslation then
      (detected_lang, text, none, none)
    else
      match env.translateText text with
      | .error _ => ("unknown", text, none, none)
      | .ok (translated_text, stats) =>
        (detected_lang, translated_text, some translated_text, some stats)

/-- Environment of `DocumentProcessor._extract_from_pdf`: whether the PDF
libraries imported, the outcome of the pdfplumber pass (each page's
`extract_text()` may be `None`; the whole `with` block may raise), and the
outcome of `_extract_with_document_intelligence` (raises on error or when
no text is returned). -/
structure PdfEnv where
  pdfLibsAvailable : Bool
  pdfplumberPages : Except String (List (Option String))
  docIntel : Except String String

/-- The text assembled from the pdfplumber pages: non-falsy page texts are
collected and joined with newlines (`""` when no page yielded text). -/
def renderPages (pages : List (Option String)) : String :=
  let text_content := pages.filterMap (fun p => p.bind (fun t => if t = "" then none else some t))
  if text_content ≠ [] then "\n".intercalate text_content else ""

/-- Model of `DocumentProcessor._extract_from_pdf`.  Second component counts the
invocations of `_extract_with_document_intelligence`.  Note that the
below-threshold fallback call sits inside the `try`, so if that call
raises, the bare `except` invokes the backend a second time. -/
def «_extract_from_pdf» (env : PdfEnv) : Except String String × Nat :=
  if !env.pdfLibsAvailable then
    (env.docIntel, 1)
  else
    match env.pdfplumberPages with
    | .error _ => (env.docIntel, 1)
    | .ok pages =>
      let text := renderPages pages
      if text = "" ∨ (pyStrip text).length < 100 then
        match env.docIntel with
        | .ok t => (.ok t, 1)
        | .error e => (.error e, 2)
      else
        (.ok text, 0)

/-- Loop body of `MultilingualRAGPipeline._create_simple_chunks`: slice
`chunk_size` words starting at `i`, join with single spaces, and append a
`Document` when the stripped text meets `min_chunk_size`. -/
def chunkFoldStep (words : List String) (chunk_size min_chunk_size : Nat)
    (filename url : String) (chunks : List Document) (i : Nat) : List Document :=
  let chunk_words := (words.drop i).take chunk_size
  let chunk_text := " ".intercalate chunk_words
  if min_chunk_size ≤ (pyStrip chunk_text).length then
    chunks ++ [{ content := chunk_text,
                 title := filename ++ " (chunk " ++ toString (chunks.length + 1) ++ ")",
                 url := url }]
  else chunks

/-- Model of `MultilingualRAGPipeline._create_simple_chunks`, with the three
processing settings it reads passed explicitly. -/
def «_create_simple_chunks» (content filename url : String)
    (chunk_size chunk_overlap min_chunk_size : Nat) : List Document :=
  let words := pySplit content
  (pyRange words.length (chunk_size - chunk_overlap)).foldl
    (chunkFoldStep words chunk_size min_chunk_size filename url) []

/-- Model of `SearchIndexManager.index_chunks`: returns 0 when the search client is
missing or the chunk list is empty, 0 when `upload_documents` raises, and
otherwise the number of per-document results whose `succeeded` flag is
set. -/
def index_chunks (searchAvailable : Bool)
    (upload : List Document → Except String (List Bool))
    (chunks : List Document) : Nat :=
  if !searchAvailable || chunks.isEmpty then 0
  else
    match upload chunks with
    | .error _ => 0
    | .ok results => results.countP (fun r => r = true)

/-- Environment of `MultilingualRAGPipeline._process_single_document`: the
document's path/name, the format looked up from its extension, the
configured settings, and the outcome of each external call the stages
make. -/
structure DocEnv where
  filePath : String
  fileName : String
  fileFormat : String
  supportedFormats : List String
  uploadDocument : Except String String
  extractText : Except String String
  trans : TransEnv
  uploadTranslated : String → Except String String
  chunkEmbed : String → Except String (List Document)
  searchAvailable : Bool
  indexUpload : List Document → Except String (List Bool)
  chunk_size : Nat
  chunk_overlap : Nat
  min_chunk_size : Nat

/-- The failed `DocumentProcessingResult` built in the `except` clause of
`_process_single_document`. -/
def failDoc (env : DocEnv) (msg : String) : DocumentProcessingResult :=
  { success := false
    original_file := env.filePath
    file_format := env.fileFormat
    detected_language := "unknown"
    error_message := some msg }

/-- Model of `MultilingualRAGPipeline._chunk_and_embed_content`: on any exception
from `chunk_content`/embedding, fall back to `_create_simple_chunks`. -/
def chunkStage (env : DocEnv) (final_text blob_url : String) : List Document :=
  match env.chunkEmbed final_text with
  | .ok chunks => chunks
  | .error _ =>
    «_create_simple_chunks» final_text env.fileName blob_url
      env.chunk_size env.chunk_overlap env.min_chunk_size

/-- Step 4 of `_process_single_document`: upload the translated content
when (and only when) the document was translated. -/
def uploadTranslatedStep (env : DocEnv) (translated : Bool) (final_text : String) :
    Except String Unit :=
  if translated then
    match env.uploadTranslated final_text with
    | .error e => .error e
    | .ok _ => .ok ()
  else .ok ()

/-- Model of `MultilingualRAGPipeline._process_single_document`: the fixed stage
sequence, with every exception caught and converted into a failed
result. -/
def «_process_single_document» (env : DocEnv) : DocumentProcessingResult :=
  if env.fileFormat ∉ env.supportedFormats then
    failDoc env ("Unsupported format: " ++ env.fileFormat)
  else
    match env.uploadDocument with
    | .error e => failDoc env e
    | .ok blob_url =>
      match env.extractText with
      | .error e => failDoc env e
      | .ok text_content =>
        if text_content = "" ∨ (pyStrip text_content).length < 50 then
          failDoc env "Insufficient text content extracted"
        else
          let r := detect_and_translate env.trans text_content
          let translated := r.2.2.1.isSome
          match uploadTranslatedStep env translated r.2.1 with
          | .error e => failDoc env e
          | .ok _ =>
            let chunks := chunkStage env r.2.1 blob_url
            { success := true
              original_file := env.filePath
              file_format := env.fileFormat
              detected_language := r.1
              translated := translated
              blob_url := some blob_url
              chunks_count := index_chunks env.searchAvailable env.indexUpload chunks
              error_message := none
              translation_stats := r.2.2.2 }

/-- Model of `MultilingualRAGPipeline.ingest_documents`.  The thread pool collects
one result per submitted document in completion order; `order` is that
completion order, as positions into the submission list (a permutation of
`range envs.length` for any actual run). -/
def ingest_documents (envs : List DocEnv) (order : List Nat) : PipelineResult :=
  let results := order.filterMap (fun i => (envs.map «_process_single_document»)[i]?)
  let processed_files := results.countP (fun r => r.success)
  let failed_files := results.length - processed_files
  let translated_files := results.countP (fun r => r.translated)
  let total_chunks := results.foldl (fun acc r => acc + r.chunks_count) 0
  { success := failed_files == 0
    total_files := envs.length
    processed_files := processed_files
    failed_files := failed_files
    translated_files := translated_files
    total_chunks := total_chunks
    results := results
    error_message := none }

/-! ## Concrete fixture environments -/

/-- A translator-backend environment that detects Romanian and translates
successfully. -/
def transEnvRo : TransEnv :=
  { detectLang := fun _ => .ok "ro"
    translateText := fun t => .ok ("EN:" ++ t, ⟨3, 1⟩)
    translationEnabled := true
    forceTranslation := false }

/-- A translator-backend environment with translation disabled. -/
def transEnvOff : TransEnv :=
  { detectLang := fun _ => .ok "ro"
    translateText := fun t => .ok ("EN:" ++ t, ⟨3, 1⟩)
    translationEnabled := false
    forceTranslation := false }

/-- Extracted text long enough to pass the 50-character minimum. -/
def longText : String :=
  "This document contains enough extracted text content to pass the minimum."

/-- A document environment in which every stage succeeds. -/
def docEnvOk : DocEnv :=
  { filePath := "docs/a.pdf"
    fileName := "a.pdf"
    fileFormat := "pdf"
    supportedFormats := ["pdf", "docx", "txt"]
    uploadDocument := .ok "https://blob/a.pdf"
    extractText := .ok longText
    trans := transEnvRo
    uploadTranslated := fun _ => .ok "https://blob/translated/a.txt"
    chunkEmbed := fun t => .ok [⟨t, "a.pdf (chunk 1)", "https://blob/a.pdf"⟩]
    searchAvailable := true
    indexUpload := fun ds => .ok (ds.map (fun _ => true))
    chunk_size := 1000
    chunk_overlap := 100
    min_chunk_size := 50 }

/-- Like `docEnvOk` but extraction always raises. -/
def docEnvFailExtract : DocEnv :=
  { docEnvOk with
    filePath := "docs/b.pdf"
    fileName := "b.pdf"
    extractText := .error "Extraction failed" }

/-- Like `docEnvOk` but the document's format is `zip`, which is not in
the supported set. -/
def docEnvZip : DocEnv :=
  { docEnvOk with
    filePath := "docs/c.zip"
    fileName := "c.zip"
    fileFormat := "zip" }

/-- Like `docEnvOk` but the translated-text upload raises. -/
def docEnvC3 : DocEnv :=
  { docEnvOk with
    uploadTranslated := fun _ => .error "Blob storage client not available" }

/-- Like `docEnvOk` but translation is disabled, so the document is
processed untranslated. -/
def docEnvUntrans : DocEnv :=
  { docEnvOk with trans := transEnvOff }

/-- Like `docEnvOk` but the index upload raises. -/
def docEnvIndexFail : DocEnv :=
  { docEnvOk with indexUpload := fun _ => .error "index upload failed" }

/-- A pdf-extraction environment whose fast path yields 10 characters and
whose heavyweight backend raises. -/
def pdfEnvShortBoom : PdfEnv :=
  { pdfLibsAvailable := true
    pdfplumberPages := .ok [some "1234567890"]
    docIntel := .error "analysis failed" }

/-- A pdf-extraction environment without the PDF libraries. -/
def pdfEnvNoLibs : PdfEnv :=
  { pdfLibsAvailable := false
    pdfplumberPages := .ok [some "ignored"]
    docIntel := .ok "document intelligence text" }

/-! ## Helper lemmas -/

/-- Stripping never lengthens a string. -/
theorem pyStrip_length_le (s : String) : (pyStrip s).length ≤ s.length := by
  show (((s.data.dropWhile Char.isWhitespace).reverse.dropWhile
      Char.isWhitespace).reverse).length ≤ s.data.length
  rw [List.length_reverse]
  calc ((s.data.dropWhile Char.isWhitespace).reverse.dropWhile Char.isWhitespace).length
      ≤ (s.data.dropWhile Char.isWhitespace).reverse.length :=
        List.Sublist.length_le (List.dropWhile_sublist _)
    _ = (s.data.dropWhile Char.isWhitespace).length := List.length_reverse _
    _ ≤ s.data.length := List.Sublist.length_le (List.dropWhile_sublist _)

/-- The contents of the chunks produced by the `_create_simple_chunks`
fold are the rendered windows that pass the minimum-size filter, in
order. -/
theorem chunkFold_map_content (words : List String) (cs mn : Nat) (fn url : String)
    (idxs : List Nat) (acc : List Document) :
    (idxs.foldl (chunkFoldStep words cs mn fn url) acc).map (fun c => c.content) =
      acc.map (fun c => c.content) ++
        ((idxs.map (fun i => " ".intercalate ((words.drop i).take cs))).filter
          (fun t => mn ≤ (pyStrip t).length)) := by
  induction idxs generalizing acc with
  | nil => simp
  | cons i rest ih =>
    rw [List.foldl_cons, ih]
    unfold chunkFoldStep
    by_cases h : mn ≤ (pyStrip (" ".intercalate ((words.drop i).take cs))).length
    · simp [h]
    · simp [h]

/-- Python `range(0, 0, step)` is empty. -/
theorem pyRange_zero (step : Nat) (h : 0 < step) : pyRange 0 step = [] := by
  unfold pyRange
  have : (0 + step - 1) / step = 0 := Nat.div_eq_of_lt (by omega)
  rw [this, List.range'_zero]

/-! ## C4 — fallback chunker -/

/-- C4: for `0 < overlap < chunkSize` and `minChunkSize ≤ chunkSize`, the
fallback chunker `_create_simple_chunks` slides a window of `chunk_size`
words advancing by `chunk_size - chunk_overlap` words per step (the chunk
contents are exactly the rendered windows at the `range`-generated offsets
that pass the minimum-size filter, in order), every emitted chunk's
rendered text length is at least `min_chunk_size` (below-minimum windows
are dropped silently), and empty text — or text all of whose windows
render below the minimum — yields the empty chunk list rather than an
error. -/
theorem c4_create_simple_chunks_window (content filename url : String) (cs ov mn : Nat)
    (h1 : 0 < ov) (h2 : ov < cs) (h3 : mn ≤ cs) :
    ((«_create_simple_chunks» content filename url cs ov mn).map (fun c => c.content) =
      ((pyRange (pySplit content).length (cs - ov)).map
          (fun i => " ".intercalate (((pySplit content).drop i).take cs))).filter
        (fun t => mn ≤ (pyStrip t).length))
    ∧ (∀ c ∈ «_create_simple_chunks» content filename url cs ov mn, mn ≤ c.content.length)
    ∧ (pySplit content = [] → «_create_simple_chunks» content filename url cs ov mn = [])
    ∧ ((∀ i ∈ pyRange (pySplit content).length (cs - ov),
          (pyStrip (" ".intercalate (((pySplit content).drop i).take cs))).length < mn) →
        «_create_simple_chunks» content filename url cs ov mn = []) := by
  have key := chunkFold_map_content (pySplit content) cs mn filename url
      (pyRange (pySplit content).length (cs - ov)) []
  refine ⟨?_, ?_, ?_, ?_⟩
  · simpa [«_create_simple_chunks»] using key
  · intro c hc
    have hmem : c.content ∈ («_create_simple_chunks» content filename url cs ov mn).map
        (fun c => c.content) := List.mem_map_of_mem _ hc
    rw [show («_create_simple_chunks» content filename url cs ov mn).map (fun c => c.content) =
        _ from by simpa [«_create_simple_chunks»] using key] at hmem
    have hfil := (List.mem_filter.mp hmem).2
    have hstrip : mn ≤ (pyStrip c.content).length := by simpa using hfil
    exact le_trans hstrip (pyStrip_length_le _)
  · intro hw
    unfold «_create_simple_chunks»
    rw [hw]
    show List.foldl _ [] (pyRange ([] : List String).length (cs - ov)) = []
    rw [show ([] : List String).length = 0 from rfl, pyRange_zero (cs - ov) (by omega)]
    rfl
  · intro hall
    have hmap : («_create_simple_chunks» content filename url cs ov mn).map
        (fun c => c.content) = [] := by
      rw [show («_create_simple_chunks» content filename url cs ov mn).map (fun c => c.content) =
          _ from by simpa [«_create_simple_chunks»] using key]
      rw [List.filter_eq_nil_iff]
      intro t ht
      rcases List.mem_map.mp ht with ⟨i, hi, rfl⟩
      simpa using Nat.not_le.mpr (hall i hi)
    exact List.map_eq_nil_iff.mp hmap

/-- Witness for C4 at a concrete input: five words, window 3, stride 2,
minimum 3 — the first two windows are emitted, the final one-word tail
window is dropped. -/
theorem c4_witness :
    (0 < 1 ∧ 1 < 3 ∧ 3 ≤ 3) ∧
      (∀ c ∈ «_create_simple_chunks» "aa bb cc dd ee" "f.txt" "u" 3 1 3,
        3 ≤ c.content.length) :=
  ⟨⟨Nat.one_pos, by omega, le_refl 3⟩,
    (c4_create_simple_chunks_window "aa bb cc dd ee" "f.txt" "u" 3 1 3
      Nat.one_pos (by omega) (le_refl 3)).2.1⟩

/-! ## C6/C7/C8 — language decision -/

/-- C6: with `translation_enabled = false`, `detect_and_translate` returns
the input text unchanged and no translated text (so the `translated` flag
derived from it is false), whatever the detected language — including a
failing detection. -/
theorem c6_translation_disabled (env : TransEnv) (text : String)
    (h : env.translationEnabled = false) :
    (detect_and_translate env text).2.1 = text ∧
      (detect_and_translate env text).2.2.1 = none := by
  unfold detect_and_translate
  cases hd : env.detectLang text with
  | error e => exact ⟨rfl, rfl⟩
  | ok lang => simp [h]

/-- Witness for C6: translation disabled, Romanian detected — the text
comes back unchanged and untranslated. -/
theorem c6_witness :
    ({ detectLang := fun _ => .ok "ro", translateText := fun _ => .ok ("x", ⟨1, 1⟩),
       translationEnabled := false, forceTranslation := false : TransEnv }.translationEnabled
        = false) ∧
    (detect_and_translate
      { detectLang := fun _ => .ok "ro", translateText := fun _ => .ok ("x", ⟨1, 1⟩),
        translationEnabled := false, forceTranslation := false } "salut").2.1 = "salut" :=
  ⟨rfl,
    (c6_translation_disabled
      { detectLang := fun _ => .ok "ro", translateText := fun _ => .ok ("x", ⟨1, 1⟩),
        translationEnabled := false, forceTranslation := false } "salut" rfl).1⟩

/-- C7: when the translation call raises on a path that reaches it
(detection succeeded, translation enabled, and the language is not an
untranslated-English skip), `detect_and_translate` degrades gracefully to
`("unknown", original text, None, None)` instead of propagating the
exception. -/
theorem c7_translate_failure_graceful (env : TransEnv) (text lang e : String)
    (hd : env.detectLang text = .ok lang)
    (he : env.translationEnabled = true)
    (hen : lang = "en" → env.forceTranslation = true)
    (ht : env.translateText text = .error e) :
    detect_and_translate env text = ("unknown", text, none, none) := by
  unfold detect_and_translate
  rw [hd]
  by_cases hlang : lang = "en"
  · simp [he, hlang, hen hlang, ht]
  · simp [he, hlang, ht]

/-- Witness for C7: detection says Romanian, translation raises — the
result is the original text tagged "unknown". -/
theorem c7_witness :
    detect_and_translate
      { detectLang := fun _ => .ok "ro", translateText := fun _ => .error "boom",
        translationEnabled := true, forceTranslation := false } "salut"
    = ("unknown", "salut", none, none) :=
  c7_translate_failure_graceful
    { detectLang := fun _ => .ok "ro", translateText := fun _ => .error "boom",
      translationEnabled := true, forceTranslation := false } "salut" "ro" "boom"
    rfl rfl (fun h => absurd h (by decide)) rfl

/-! ## Stage-shape lemmas for `_process_single_document` -/

theorem process_fail_unsupported (env : DocEnv)
    (h : env.fileFormat ∉ env.supportedFormats) :
    «_process_single_document» env =
      failDoc env ("Unsupported format: " ++ env.fileFormat) := by
  unfold «_process_single_document»
  rw [if_pos h]

theorem process_fail_upload (env : DocEnv) (e : String)
    (h1 : env.fileFormat ∈ env.supportedFormats)
    (h2 : env.uploadDocument = .error e) :
    «_process_single_document» env = failDoc env e := by
  unfold «_process_single_document»
  rw [if_neg (by simpa using h1), h2]

theorem process_fail_extract (env : DocEnv) (u e : String)
    (h1 : env.fileFormat ∈ env.supportedFormats)
    (h2 : env.uploadDocument = .ok u)
    (h3 : env.extractText = .error e) :
    «_process_single_document» env = failDoc env e := by
  unfold «_process_single_document»
  rw [if_neg (by simpa using h1), h2, h3]

theorem process_fail_insufficient (env : DocEnv) (u t : String)
    (h1 : env.fileFormat ∈ env.supportedFormats)
    (h2 : env.uploadDocument = .ok u)
    (h3 : env.extractText = .ok t)
    (h4 : t = "" ∨ (pyStrip t).length < 50) :
    «_process_single_document» env =
      failDoc env "Insufficient text content extracted" := by
  unfold «_process_single_document»
  rw [if_neg (by simpa using h1), h2, h3]
  dsimp only
  rw [if_pos h4]

theorem process_fail_translated_upload (env : DocEnv) (u t e : String)
    (h1 : env.fileFormat ∈ env.supportedFormats)
    (h2 : env.uploadDocument = .ok u)
    (h3 : env.extractText = .ok t)
    (h4 : ¬(t = "" ∨ (pyStrip t).length < 50))
    (h5 : uploadTranslatedStep env (detect_and_translate env.trans t).2.2.1.isSome
            (detect_and_translate env.trans t).2.1 = .error e) :
    «_process_single_document» env = failDoc env e := by
  unfold «_process_single_document»
  rw [if_neg (by simpa using h1), h2, h3]
  dsimp only
  rw [if_neg h4, h5]

theorem process_success_shape (env : DocEnv) (u t : String)
    (h1 : env.fileFormat ∈ env.supportedFormats)
    (h2 : env.uploadDocument = .ok u)
    (h3 : env.extractText = .ok t)
    (h4 : ¬(t = "" ∨ (pyStrip t).length < 50))
    (h5 : uploadTranslatedStep env (detect_and_translate env.trans t).2.2.1.isSome
            (detect_and_translate env.trans t).2.1 = .ok ()) :
    «_process_single_document» env =
      { success := true
        original_file := env.filePath
        file_format := env.fileFormat
        detected_language := (detect_and_translate env.trans t).1
        translated := (detect_and_translate env.trans t).2.2.1.isSome
        blob_url := some u
        chunks_count := index_chunks env.searchAvailable env.indexUpload
          (chunkStage env (detect_and_translate env.trans t).2.1 u)
        error_message := none
        translation_stats := (detect_and_translate env.trans t).2.2.2 } := by
  unfold «_process_single_document»
  rw [if_neg (by simpa using h1), h2, h3]
  dsimp only
  rw [if_neg h4, h5]

/-- If `detect_and_translate` reports no translated text, the final text
it returns is the input text itself. -/
theorem detect_none_final_eq (env : TransEnv) (text : String)
    (h : (detect_and_translate env text).2.2.1 = none) :
    (detect_and_translate env text).2.1 = text := by
  unfold detect_and_translate at h ⊢
  cases hd : env.detectLang text with
  | error e => rfl
  | ok lang =>
    rw [hd] at h
    dsimp only at h ⊢
    by_cases he : (!env.translationEnabled) = true
    · simp [he]
    · rw [if_neg he] at h ⊢
      by_cases hs : (lang == "en" && !env.forceTranslation) = true
      · simp [hs]
      · rw [if_neg hs] at h ⊢
        cases ht : env.translateText text with
        | error e => rfl
        | ok p =>
          rcases p with ⟨tt, st⟩
          rw [ht] at h
          simp at h

/-- A processed document succeeds exactly when it carries no error
message. -/
theorem process_success_iff_no_error (env : DocEnv) :
    ((«_process_single_document» env).success = true ↔
      («_process_single_document» env).error_message = none) := by
  by_cases h1 : env.fileFormat ∈ env.supportedFormats
  · cases h2 : env.uploadDocument with
    | error e => rw [process_fail_upload env e h1 h2]; simp [failDoc]
    | ok u =>
      cases h3 : env.extractText with
      | error e => rw [process_fail_extract env u e h1 h2 h3]; simp [failDoc]
      | ok t =>
        by_cases h4 : (t = "" ∨ (pyStrip t).length < 50)
        · rw [process_fail_insufficient env u t h1 h2 h3 h4]; simp [failDoc]
        · cases h5 : uploadTranslatedStep env
              (detect_and_translate env.trans t).2.2.1.isSome
              (detect_and_translate env.trans t).2.1 with
          | error e =>
            rw [process_fail_translated_upload env u t e h1 h2 h3 h4 h5]; simp [failDoc]
          | ok a =>
            cases a
            rw [process_success_shape env u t h1 h2 h3 h4 h5]
            simp
  · rw [process_fail_unsupported env h1]; simp [failDoc]

/-! ## C1 — worker-level exception capture and isolation -/

/-- C1: each stage exception (unsupported format, original-upload failure,
extraction failure, insufficient extracted content) is caught by
`_process_single_document` and turned into a failed result whose
`error_message` is exactly the exception's description; a result succeeds
iff it carries no error message (no exception escapes, the worker always
returns a result); and replacing one document's environment — e.g. by one
that always fails — leaves every other document's result in the batch
unchanged. -/
theorem c1_worker_catches_and_isolates (env : DocEnv) (e u t : String)
    (envs : List DocEnv) (i j : Nat) (env' : DocEnv) (hij : i ≠ j) :
    ((«_process_single_document» env).success = true ↔
      («_process_single_document» env).error_message = none)
    ∧ (env.fileFormat ∉ env.supportedFormats →
        «_process_single_document» env =
          failDoc env ("Unsupported format: " ++ env.fileFormat))
    ∧ (env.fileFormat ∈ env.supportedFormats → env.uploadDocument = .error e →
        «_process_single_document» env = failDoc env e)
    ∧ (env.fileFormat ∈ env.supportedFormats → env.uploadDocument = .ok u →
        env.extractText = .error e → «_process_single_document» env = failDoc env e)
    ∧ (env.fileFormat ∈ env.supportedFormats → env.uploadDocument = .ok u →
        env.extractText = .ok t → (t = "" ∨ (pyStrip t).length < 50) →
        «_process_single_document» env =
          failDoc env "Insufficient text content extracted")
    ∧ (((envs.set i env').map «_process_single_document»)[j]? =
        (envs.map «_process_single_document»)[j]?) := by
  refine ⟨process_success_iff_no_error env, process_fail_unsupported env,
    process_fail_upload env e, process_fail_extract env u e,
    process_fail_insufficient env u t, ?_⟩
  rw [List.map_set]
  exact List.getElem?_set_ne hij

/-- Witness for C1: a document whose extraction raises comes back as a
failed result carrying that error, and replacing the second document of a
two-document batch does not change the first document's result. -/
theorem c1_witness :
    «_process_single_document» docEnvFailExtract =
      failDoc docEnvFailExtract "Extraction failed"
    ∧ (([docEnvOk, docEnvFailExtract].set 1 docEnvZip).map
          «_process_single_document»)[0]? =
        ([docEnvOk, docEnvFailExtract].map «_process_single_document»)[0]? :=
  ⟨(c1_worker_catches_and_isolates docEnvFailExtract "Extraction failed"
      "https://blob/a.pdf" longText [docEnvOk, docEnvFailExtract] 1 0 docEnvZip
      (by decide)).2.2.2.1 (by decide) rfl rfl,
    (c1_worker_catches_and_isolates docEnvFailExtract "Extraction failed"
      "https://blob/a.pdf" longText [docEnvOk, docEnvFailExtract] 1 0 docEnvZip
      (by decide)).2.2.2.2.2⟩

/-! ## C2/C10 — run-level aggregation -/

/-- Collecting the elements of `L` by position over `range L.length`
returns `L` itself. -/
theorem filterMap_getElem_range {α : Type} (L : List α) :
    (List.range L.length).filterMap (fun i => L[i]?) = L := by
  induction L with
  | nil => simp
  | cons a tl ih =>
    simp only [List.length_cons, List.range_succ_eq_map, List.filterMap_cons,
      List.getElem?_cons_zero, List.filterMap_map, Function.comp_def,
      List.getElem?_cons_succ]
    exact congrArg (a :: ·) ih

/-- The collected results of a run are a permutation of the per-document
results in submission order, whenever `order` is a completion order. -/
theorem collect_results_perm (envs : List DocEnv) (order : List Nat)
    (hperm : order.Perm (List.range envs.length)) :
    (order.filterMap (fun i => (envs.map «_process_single_document»)[i]?)).Perm
      (envs.map «_process_single_document») := by
  have key : (List.range envs.length).filterMap
      (fun i => (envs.map «_process_single_document»)[i]?)
      = envs.map «_process_single_document» := by
    have h := filterMap_getElem_range (envs.map «_process_single_document»)
    rwa [List.length_map] at h
  have h := hperm.filterMap (fun i => (envs.map «_process_single_document»)[i]?)
  rwa [key] at h

/-- C2: for every run, `processed_files + failed_files = total_files`,
`total_files` is the number of submitted documents, and the results list
is exactly one result per input document (a permutation of the
per-document results — nothing dropped, nothing duplicated). -/
theorem c2_run_report_complete (envs : List DocEnv) (order : List Nat)
    (hperm : order.Perm (List.range envs.length)) :
    (ingest_documents envs order).processed_files
        + (ingest_documents envs order).failed_files
      = (ingest_documents envs order).total_files
    ∧ (ingest_documents envs order).total_files = envs.length
    ∧ (ingest_documents envs order).results.Perm
        (envs.map «_process_single_document») := by
  have hp := collect_results_perm envs order hperm
  have hlen : (order.filterMap
      (fun i => (envs.map «_process_single_document»)[i]?)).length = envs.length := by
    rw [hp.length_eq, List.length_map]
  have hcle := List.countP_le_length
    (fun r : DocumentProcessingResult => r.success)
    (l := order.filterMap (fun i => (envs.map «_process_single_document»)[i]?))
  unfold ingest_documents
  dsimp only
  exact ⟨by omega, rfl, hp⟩

/-- C10: the run-level `success` flag is true exactly when
`failed_files = 0`, which in turn holds exactly when every submitted
document's individual result succeeded; a run with failing documents
still yields a complete `PipelineResult` with `success = false` (the
aggregation is total). -/
theorem c10_success_iff_no_failures (envs : List DocEnv) (order : List Nat)
    (hperm : order.Perm (List.range envs.length)) :
    ((ingest_documents envs order).success = true ↔
      (ingest_documents envs order).failed_files = 0)
    ∧ ((ingest_documents envs order).failed_files = 0 ↔
      ∀ env ∈ envs, («_process_single_document» env).success = true) := by
  have hp := collect_results_perm envs order hperm
  have hlen : (order.filterMap
      (fun i => (envs.map «_process_single_document»)[i]?)).length = envs.length := by
    rw [hp.length_eq, List.length_map]
  have hcle := List.countP_le_length
    (fun r : DocumentProcessingResult => r.success)
    (l := order.filterMap (fun i => (envs.map «_process_single_document»)[i]?))
  unfold ingest_documents
  dsimp only
  constructor
  · exact beq_iff_eq
  · rw [Nat.sub_eq_zero_iff_le]
    constructor
    · intro hle env henv
      have heq : (order.filterMap
          (fun i => (envs.map «_process_single_document»)[i]?)).countP
            (fun r => r.success)
          = (order.filterMap
          (fun i => (envs.map «_process_single_document»)[i]?)).length :=
        le_antisymm hcle hle
      have hall := List.countP_eq_length.mp heq
      have hmem : «_process_single_document» env ∈
          order.filterMap (fun i => (envs.map «_process_single_document»)[i]?) :=
        hp.mem_iff.mpr (List.mem_map_of_mem _ henv)
      simpa using hall _ hmem
    · intro hall
      have heq : (order.filterMap
          (fun i => (envs.map «_process_single_document»)[i]?)).countP
            (fun r => r.success)
          = (order.filterMap
          (fun i => (envs.map «_process_single_document»)[i]?)).length := by
        apply List.countP_eq_length.mpr
        intro r hr
        rcases List.mem_map.mp (hp.mem_iff.mp hr) with ⟨env, henv, rfl⟩
        simpa using hall env henv
      omega

/-! ## C3 — translated-text upload failure -/

/-- Counterexample to C3 as stated: in `docEnvC3` the document is
translated, the translated-text upload raises, and — because that call
sits inside the worker's `try` with no local handler — the document's
outcome IS a failure carrying the storage error. -/
theorem c3_counterexample :
    (detect_and_translate docEnvC3.trans longText).2.2.1.isSome = true
    ∧ docEnvC3.uploadTranslated (detect_and_translate docEnvC3.trans longText).2.1
        = .error "Blob storage client not available"
    ∧ («_process_single_document» docEnvC3).success = false
    ∧ («_process_single_document» docEnvC3).error_message
        = some "Blob storage client not available" :=
  ⟨rfl, rfl, by decide, by decide⟩

/-- C3 (amended): a failure of the translated-text upload is a hard
per-document failure, exactly like unavailability during the mandatory
original-document upload: in both cases the worker returns a failed
result carrying the storage error. -/
theorem c3_translated_upload_is_hard_failure (env : DocEnv) (u t e e2 : String)
    (h1 : env.fileFormat ∈ env.supportedFormats)
    (h2 : env.uploadDocument = .ok u)
    (h3 : env.extractText = .ok t)
    (h4 : ¬(t = "" ∨ (pyStrip t).length < 50))
    (h5 : (detect_and_translate env.trans t).2.2.1.isSome = true)
    (h6 : env.uploadTranslated (detect_and_translate env.trans t).2.1 = .error e) :
    «_process_single_document» env = failDoc env e
    ∧ ∀ env2 : DocEnv, env2.fileFormat ∈ env2.supportedFormats →
        env2.uploadDocument = .error e2 →
        «_process_single_document» env2 = failDoc env2 e2 := by
  constructor
  · apply process_fail_translated_upload env u t e h1 h2 h3 h4
    unfold uploadTranslatedStep
    rw [if_pos h5, h6]
  · intro env2 hm hu
    exact process_fail_upload env2 e2 hm hu

/-- Witness for the amended C3 at the concrete environment `docEnvC3`. -/
theorem c3_witness :
    «_process_single_document» docEnvC3 =
      failDoc docEnvC3 "Blob storage client not available" :=
  (c3_translated_upload_is_hard_failure docEnvC3 "https://blob/a.pdf" longText
    "Blob storage client not available" "x" (by decide) rfl rfl (by decide)
    rfl rfl).1

/-! ## C5 — pdf extraction fallback chain -/

/-- Counterexample to C5 as stated: fast-path extraction yields 10
characters (below the 100-character threshold), the heavyweight backend
raises — and is invoked twice, not exactly once, because the in-`try`
fallback call's exception is caught by the bare `except`, which calls the
backend again. -/
theorem c5_counterexample :
    («_extract_from_pdf» pdfEnvShortBoom).2 = 2
    ∧ ¬(«_extract_from_pdf» pdfEnvShortBoom).2 = 1 := by decide

/-- C5 (amended): pdf extraction attempts the fast text-layer path first;
if the libraries are unavailable, the fast path raises, or the stripped
text is below the 100-character threshold, it falls back to the
heavyweight backend — invoked exactly once, except in the below-threshold
case when the heavyweight call itself raises: the blanket `except` then
invokes it a second time (twice in total) and the second outcome is
returned.  A sufficiently long fast-path text never invokes the
backend. -/
theorem c5_pdf_fallback_chain (env : PdfEnv) (pages : List (Option String))
    (t e : String) :
    (env.pdfLibsAvailable = false → «_extract_from_pdf» env = (env.docIntel, 1))
    ∧ (env.pdfLibsAvailable = true → env.pdfplumberPages = .error e →
        «_extract_from_pdf» env = (env.docIntel, 1))
    ∧ (env.pdfLibsAvailable = true → env.pdfplumberPages = .ok pages →
        (renderPages pages = "" ∨ (pyStrip (renderPages pages)).length < 100) →
        (env.docIntel = .ok t → «_extract_from_pdf» env = (.ok t, 1))
        ∧ (env.docIntel = .error e → «_extract_from_pdf» env = (.error e, 2)))
    ∧ (env.pdfLibsAvailable = true → env.pdfplumberPages = .ok pages →
        ¬(renderPages pages = "" ∨ (pyStrip (renderPages pages)).length < 100) →
        «_extract_from_pdf» env = (.ok (renderPages pages), 0)) := by
  refine ⟨?_, ?_, ?_, ?_⟩
  · intro h
    unfold «_extract_from_pdf»
    rw [h]
    rfl
  · intro ha hp
    unfold «_extract_from_pdf»
    rw [ha, hp]
    rfl
  · intro ha hp hshort
    constructor
    · intro hok
      unfold «_extract_from_pdf»
      rw [ha, hp, hok]
      show (if renderPages pages = "" ∨ (pyStrip (renderPages pages)).length < 100
          then ((Except.ok t : Except String String), 1)
          else (Except.ok (renderPages pages), 0)) = (Except.ok t, 1)
      rw [if_pos hshort]
    · intro herr
      unfold «_extract_from_pdf»
      rw [ha, hp, herr]
      show (if renderPages pages = "" ∨ (pyStrip (renderPages pages)).length < 100
          then ((Except.error e : Except String String), 2)
          else (Except.ok (renderPages pages), 0)) = (Except.error e, 2)
      rw [if_pos hshort]
  · intro ha hp hlong
    unfold «_extract_from_pdf»
    rw [ha, hp]
    show (if renderPages pages = "" ∨ (pyStrip (renderPages pages)).length < 100
        then (match env.docIntel with
              | Except.ok t => ((Except.ok t : Except String String), 1)
              | Except.error e => (Except.error e, 2))
        else (Except.ok (renderPages pages), 0)) = (Except.ok (renderPages pages), 0)
    rw [if_neg hlong]

/-- Witness for the amended C5: without the PDF libraries the heavyweight
backend's outcome is returned and it is invoked exactly once. -/
theorem c5_witness :
    «_extract_from_pdf» pdfEnvNoLibs = (pdfEnvNoLibs.docIntel, 1) :=
  (c5_pdf_fallback_chain pdfEnvNoLibs [] "t" "e").1 rfl

/-! ## C8 — untranslated final text is the input text -/

/-- C8: whenever the language decision reports no translation, the final
text it returns is the input text itself; and in the worker, an
untranslated document's chunking stage receives exactly the extracted
text (the success result's chunk count is computed from
`chunkStage env t u` with `t` the extracted text). -/
theorem c8_untranslated_final_text_unchanged (envT : TransEnv) (text : String)
    (env : DocEnv) (u t : String)
    (h0 : (detect_and_translate envT text).2.2.1 = none)
    (h1 : env.fileFormat ∈ env.supportedFormats)
    (h2 : env.uploadDocument = .ok u)
    (h3 : env.extractText = .ok t)
    (h4 : ¬(t = "" ∨ (pyStrip t).length < 50))
    (h6 : (detect_and_translate env.trans t).2.2.1 = none) :
    (detect_and_translate envT text).2.1 = text
    ∧ («_process_single_document» env).translated = false
    ∧ («_process_single_document» env).chunks_count =
        index_chunks env.searchAvailable env.indexUpload (chunkStage env t u) := by
  have hstep : uploadTranslatedStep env
      (detect_and_translate env.trans t).2.2.1.isSome
      (detect_and_translate env.trans t).2.1 = .ok () := by
    unfold uploadTranslatedStep
    rw [h6]
    simp
  have hshape := process_success_shape env u t h1 h2 h3 h4 hstep
  refine ⟨detect_none_final_eq envT text h0, ?_, ?_⟩
  · rw [hshape]
    show (detect_and_translate env.trans t).2.2.1.isSome = false
    rw [h6]
    rfl
  · rw [hshape]
    show index_chunks env.searchAvailable env.indexUpload
        (chunkStage env (detect_and_translate env.trans t).2.1 u) = _
    rw [detect_none_final_eq env.trans t h6]

/-- Witness for C8: translation disabled — the decision returns the text
unchanged and the processed document is marked untranslated. -/
theorem c8_witness :
    (detect_and_translate transEnvOff "salut").2.1 = "salut"
    ∧ («_process_single_document» docEnvUntrans).translated = false := by
  have h := c8_untranslated_final_text_unchanged transEnvOff "salut" docEnvUntrans
    "https://blob/a.pdf" longText rfl (by decide) rfl rfl (by decide) rfl
  exact ⟨h.1, h.2.1⟩

/-! ## C9 — indexing failures are absorbed -/

/-- When the index upload raises, `index_chunks` swallows the exception
and reports zero indexed chunks. -/
theorem index_chunks_upload_error (avail : Bool)
    (upload : List Document → Except String (List Bool))
    (chunks : List Document) (e : String)
    (h : upload chunks = .error e) :
    index_chunks avail upload chunks = 0 := by
  unfold index_chunks
  split
  · rfl
  · rw [h]

/-- C9: `index_chunks` is total — it returns 0 on an empty chunk list,
0 when the underlying upload raises, and otherwise the number of accepted
documents; consequently a successful document whose index upload raises
still succeeds with `chunks_count = 0`, and partial acceptance only
lowers `chunks_count`. -/
theorem c9_indexing_never_fatal (avail : Bool)
    (upload : List Document → Except String (List Bool))
    (chunks : List Document) (e : String) (flags : List Bool)
    (env : DocEnv) (u t : String) :
    (index_chunks avail upload [] = 0)
    ∧ (upload chunks = .error e → index_chunks avail upload chunks = 0)
    ∧ (avail = true → chunks ≠ [] → upload chunks = .ok flags →
        index_chunks avail upload chunks = flags.countP (fun r => r = true))
    ∧ (env.fileFormat ∈ env.supportedFormats → env.uploadDocument = .ok u →
        env.extractText = .ok t → ¬(t = "" ∨ (pyStrip t).length < 50) →
        uploadTranslatedStep env (detect_and_translate env.trans t).2.2.1.isSome
          (detect_and_translate env.trans t).2.1 = .ok () →
        («_process_single_document» env).success = true
        ∧ (env.indexUpload (chunkStage env (detect_and_translate env.trans t).2.1 u)
              = .error e →
            («_process_single_document» env).chunks_count = 0)) := by
  refine ⟨?_, ?_, ?_, ?_⟩
  · simp [index_chunks]
  · exact index_chunks_upload_error avail upload chunks e
  · intro ha hc hup
    unfold index_chunks
    rw [if_neg (by simp [ha, List.isEmpty_iff, hc]), hup]
  · intro h1 h2 h3 h4 h5
    have hshape := process_success_shape env u t h1 h2 h3 h4 h5
    constructor
    · rw [hshape]
    · intro hie
      rw [hshape]
      show index_chunks env.searchAvailable env.indexUpload
          (chunkStage env (detect_and_translate env.trans t).2.1 u) = 0
      exact index_chunks_upload_error _ _ _ e hie

/-- Witness for C9: in `docEnvIndexFail` every stage succeeds but the
index upload raises — the document still succeeds, with zero chunks. -/
theorem c9_witness :
    («_process_single_document» docEnvIndexFail).success = true
    ∧ («_process_single_document» docEnvIndexFail).chunks_count = 0 := by
  have h := (c9_indexing_never_fatal true docEnvIndexFail.indexUpload []
      "index upload failed" [] docEnvIndexFail "https://blob/a.pdf" longText).2.2.2
      (by decide) rfl rfl (by decide) rfl
  exact ⟨h.1, h.2 rfl⟩

/-! ## C2/C10 witnesses -/

/-- Witness for C2 on a concrete two-document batch collected in reverse
completion order. -/
theorem c2_witness :
    (ingest_documents [docEnvOk, docEnvFailExtract] [1, 0]).processed_files
        + (ingest_documents [docEnvOk, docEnvFailExtract] [1, 0]).failed_files
      = (ingest_documents [docEnvOk, docEnvFailExtract] [1, 0]).total_files :=
  (c2_run_report_complete [docEnvOk, docEnvFailExtract] [1, 0] (by decide)).1

/-- Witness for C10 on the same batch: the run's `success` flag reflects
whether all documents succeeded. -/
theorem c10_witness :
    ((ingest_documents [docEnvOk, docEnvFailExtract] [1, 0]).success = true ↔
      ∀ env ∈ [docEnvOk, docEnvFailExtract],
        («_process_single_document» env).success = true) := by
  have h := c10_success_iff_no_failures [docEnvOk, docEnvFailExtract] [1, 0] (by decide)
  exact h.1.trans h.2
